import Mathlib

/-
Verification of the flight gate reassignment engine
(src/aae5103/project/gate_assignment_engine.py) and its web handler
(src/aae5103/project/app.py).

Shallow embedding conventions:
* A pandas flight row is a `Flight` record carrying the columns the engine
  reads: `no`, `deptime` (string), `start`, `end` (here `endT`, minutes as
  integers) and `gate`.  The `time`, `status` and `coordinate` columns are
  mirrored by the code (lines 488-490) but never read back by the
  reassignment logic, so they are omitted.
* The module-level globals `_latest_flights_df` / `_latest_assignment`
  (lines 47-49) are an explicit `EngineState` that is threaded through the
  functions; `load_current_flights` returning a copy of the globals is
  modelled by the purely functional state passing.  The spreadsheet-loading
  fallback (used only when the globals are still unset) is abstracted as the
  initial value of the state.
* The CP-SAT backend is an external collaborator (spec section 4.4); it is a
  parameter `solver : SolveInput → SolverOutcome`.  On `sat` it yields the
  values of the boolean variables `assigned[(i, j)]` (the only solver values
  the code reads back, lines 708-712) as a function `Nat → Nat → Bool`.
  `solver.ObjectiveValue()` is the model objective evaluated at that
  solution, which is what CP-SAT reports for the solution it returns.
* Python exceptions are `Option`/early returns; every exception inside
  `reassign_gates` is caught at the top (lines 793-802) and becomes a
  `failed` result that leaves the committed globals untouched.
* `reassignGates`/`appReassign` additionally return a `Bool` recording
  whether the optimizer backend was invoked (an effect trace; it is not part
  of the JSON result).
* Log/message texts are abbreviated; no claim depends on the message wording,
  only on whether a message is present.
-/

/-- BUFFER_TIME constant (gate_assignment_engine.py line 42). -/
def BUFFER_TIME : Int := 30

/-- FLIGHT_OCCUPATION_BEFORE constant (line 44). -/
def FLIGHT_OCCUPATION_BEFORE : Int := 30

/-- FLIGHT_OCCUPATION_AFTER constant (line 45). -/
def FLIGHT_OCCUPATION_AFTER : Int := 30

/-- A flight row of the working DataFrame, restricted to the columns the
reassignment engine reads (`no`, `deptime`, `start`, `end`, `gate`). -/
structure Flight where
  no : String
  deptime : String
  start : Int
  endT : Int
  gate : String
deriving DecidableEq, Repr

/-- Default flight used for out-of-range `getD` list reads (never reached on
the in-range indices the theorems quantify over). -/
def defFlight : Flight := ⟨"", "", 0, 0, ""⟩

/-- One entry of the result `assignment` list (lines 762-767). -/
structure AssignRecord where
  flight : String
  originalGate : String
  newGate : String
  time : String
deriving DecidableEq, Repr

/-- Default record for out-of-range `getD` reads. -/
def defRec : AssignRecord := ⟨"", "", "", ""⟩

/-- The committed process-wide schedule state: the globals
`_latest_flights_df` and `_latest_assignment` (lines 47-49). -/
structure EngineState where
  latestFlights : List Flight
  latestAssignment : Option (List AssignRecord)
deriving DecidableEq, Repr

/-- The JSON result dictionary of `reassign_gates` (and of the `/reassign`
endpoint): `status`, optional `message`, `assignment` (empty when the key is
absent) and optional `objective_value`. -/
structure EngineResult where
  status : String
  message : Option String
  assignment : List AssignRecord
  objectiveValue : Option ℚ
deriving DecidableEq, Repr

/-- One entry of `delayed_flights`: keys `no` and `new_time`. -/
structure DelayReq where
  no : String
  newTime : String
deriving DecidableEq, Repr

/-- The `event_data` dictionary consumed by `reassign_gates`: `closed_gates`,
`delayed_flights` and the `_force_reassign` flag (an absent key is the empty
list / `false`). -/
structure EventData where
  closedGates : List String
  delayedFlights : List DelayReq
  forceReassign : Bool

/-- The JSON body of a POST /reassign request (app.py): `closed_gates` and
`delayed_flights`, with absent keys defaulting to the empty list. -/
structure AppRequest where
  closedGates : List String
  delayedFlights : List DelayReq

/-- Python `str.split(':')` on the character list: split at every colon,
keeping empty parts. -/
def splitCols : List Char → List (List Char)
  | [] => [[]]
  | c :: rest =>
    let r := splitCols rest
    if c = ':' then [] :: r
    else (c :: r.headD []) :: r.tail

/-- ASCII whitespace test (the whitespace Python `int` strips). -/
def isSpaceChar (c : Char) : Bool :=
  c = ' ' || c = '\t' || c = '\n' || c = '\r'

/-- Strip leading and trailing whitespace. -/
def trimChars (l : List Char) : List Char :=
  ((l.dropWhile isSpaceChar).reverse.dropWhile isSpaceChar).reverse

/-- Value of a decimal digit string. -/
def digitsToNat (l : List Char) : Nat :=
  l.foldl (fun acc c => acc * 10 + (c.toNat - '0'.toNat)) 0

/-- Python `int(str)`: optional surrounding whitespace, optional sign, then a
nonempty decimal digit string.  (Digit-group underscores accepted by Python 3
are not modelled; no input in this development uses them.) -/
def pyToInt (l : List Char) : Option Int :=
  match trimChars l with
  | [] => none
  | c :: rest =>
    let core := if c = '-' || c = '+' then rest else c :: rest
    if core.length ≠ 0 && core.all (fun d => d.isDigit) then
      some (if c = '-' then -(digitsToNat core : Int) else (digitsToNat core : Int))
    else none

/-- time_to_minutes (lines 51-70): split on a colon into exactly two parts,
convert both with `int`, return `hours * 60 + minutes`; `none` models the
raised `ValueError`.  Note that the engine-level function performs no range
check on hours or minutes. -/
def time_to_minutes (s : String) : Option Int :=
  match splitCols s.data with
  | [h, m] =>
    match pyToInt h, pyToInt m with
    | some hv, some mv => some (hv * 60 + mv)
    | _, _ => none
  | _ => none

/-- The time validation of the /reassign endpoint (app.py lines 126-138):
split on a colon into two `int`-parseable parts with `0 ≤ HH ≤ 23` and
`0 ≤ MM ≤ 59`; any exception makes it invalid. -/
def validTimeApp (s : String) : Bool :=
  match splitCols s.data with
  | [h, m] =>
    match pyToInt h, pyToInt m with
    | some hv, some mv =>
      decide (0 ≤ hv) && decide (hv ≤ 23) && decide (0 ≤ mv) && decide (mv ≤ 59)
    | _, _ => false
  | _ => false

/-- check_time_overlap (lines 329-368), verbatim: first branch when flight 1
ends at or before flight 2 starts, second branch for the symmetric case,
otherwise the overlap amount. -/
def check_time_overlap (f1s f1e f2s f2e bufferTime : Int) : Bool × Option Int :=
  if f1e ≤ f2s then
    let interval := f2s - f1e
    if interval < bufferTime then (true, some interval) else (false, none)
  else if f2e ≤ f1s then
    let interval := f1s - f2e
    if interval < bufferTime then (true, some interval) else (false, none)
  else
    (true, some (min f1e f2e - max f1s f2s))

/-- The boolean conflict test between two flights' occupation windows with the
standard buffer, i.e. the first component of `check_time_overlap` as used
throughout `reassign_gates`. -/
def conflictB (f g : Flight) : Bool :=
  (check_time_overlap f.start f.endT g.start g.endT BUFFER_TIME).1

/-- The double loop of the pre-solve conflict scan for a single gate
(lines 523-541): does any ordered pair inside the list conflict? -/
def anyConflictPair : List Flight → Bool
  | [] => false
  | f :: rest => rest.any (fun g => conflictB f g) || anyConflictPair rest

/-- Step 8 of reassign_gates (lines 512-544): the gates of the distance
matrix whose currently assigned flights contain a conflicting pair (the keys
of `gate_conflicts`). -/
def conflictedGates (gn : List String) (fs : List Flight) : List String :=
  gn.filter (fun g => anyConflictPair (fs.filter (fun f => f.gate == g)))

/-- Step 5 validation of closed gates (lines 463-470): unknown gate ids are
dropped with a logged warning; the valid ones are kept in order. -/
def validatedClosed (gn cg : List String) : List String :=
  cg.filter (fun g => gn.contains g)

/-- The final `unavailable_gates` list: when the event carries no closed
gates at all, step 9 (lines 547-560) fills it with the conflicted gates;
otherwise it is the validated closed-gate list (step 9 is skipped because the
raw `closed_gates` entry is truthy, line 552). -/
def unavailOf (gn : List String) (fs : List Flight) (cg : List String) : List String :=
  if cg.isEmpty then conflictedGates gn fs else validatedClosed gn cg

/-- Step 10 (lines 563-569): the flights currently sitting on an unavailable
gate, listed gate by gate. -/
def flightsToReassignOf (unav : List String) (fs : List Flight) : List String :=
  unav.foldr (fun g acc => ((fs.filter (fun f => f.gate == g)).map (fun f => f.no)) ++ acc) []

/-- The identity assignment built by the no-op shortcut (lines 578-587):
every flight keeps its current gate. -/
def identityRecs (fs : List Flight) : List AssignRecord :=
  fs.map (fun f => ⟨f.no, f.gate, f.gate, f.deptime⟩)

/-- The row update applied to every row matching a delayed flight's id
(lines 487-497): new `deptime` and recomputed occupation window. -/
def delayUpdate (d : DelayReq) (t : Int) (fs : List Flight) : List Flight :=
  fs.map (fun f =>
    if f.no == d.no then
      { f with deptime := d.newTime,
               start := t - FLIGHT_OCCUPATION_BEFORE,
               endT := t + FLIGHT_OCCUPATION_AFTER }
    else f)

/-- Step 6 (lines 476-503): apply the delay list in order to the working
copy.  An unknown flight id is skipped with a logged warning; a found flight
has all its matching rows updated (`deptime`, recomputed `start`/`end`); a
`new_time` that `time_to_minutes` cannot parse raises, which aborts the whole
call (`none`). -/
def applyDelays : List Flight → List DelayReq → Option (List Flight)
  | fs, [] => some fs
  | fs, d :: rest =>
    if fs.any (fun f => f.no == d.no) then
      match time_to_minutes d.newTime with
      | none => none
      | some t => applyDelays (delayUpdate d t fs) rest
    else applyDelays fs rest

/-- Step 7 (lines 505-510): the scaled integer distance matrix entry
`int(d * 100)`.  Python `int` truncates toward zero; for the exact rational
`d = num / den` the value `d * 100` is the fraction `num * 100 / den`, and
its truncation toward zero is the truncated integer quotient `Int.tdiv`. -/
def scaledDist (rawDist : Nat → Nat → ℚ) (r c : Nat) : Int :=
  Int.tdiv ((rawDist r c).num * 100) ((rawDist r c).den : Int)

/-- Index of a gate name in the gate list (`gate_name_to_idx`, line 451).
The Python dict keeps the last index of a duplicated name; gate names are
unique in the data model, under which first and last coincide. -/
def gateIdx : List String → String → Nat
  | [], _ => 0
  | g :: rest, x => if g == x then 0 else gateIdx rest x + 1

/-- The model handed to the CP-SAT backend: the working flight list, the gate
names, the unavailable gates (conflict constraints and gate-exclusion
constraints are determined by these) and the scaled objective coefficients. -/
structure SolveInput where
  flights : List Flight
  gateNames : List String
  unavailable : List String
  obj : Nat → Nat → Int

/-- Outcome of the backend solve: OPTIMAL/FEASIBLE with the values of the
`assigned[(i, j)]` boolean variables, or anything else (INFEASIBLE, UNKNOWN,
MODEL_INVALID), which the code treats uniformly as failure (line 697). -/
inductive SolverOutcome where
  | sat (sol : Nat → Nat → Bool)
  | unsat

/-- Builds the solver input from the working data. -/
def mkSolveInput (gn : List String) (rawDist : Nat → Nat → ℚ) (wf : List Flight)
    (unav : List String) : SolveInput :=
  ⟨wf, gn, unav, fun r c => scaledDist rawDist r c⟩

/-- The backend contract: the returned boolean values satisfy the constraints
the model builder added — exactly one gate per flight (line 608), no two
conflicting flights on the same gate (line 643), and no flight on an
unavailable gate (line 657, stated here for every index naming an
unavailable gate; with the data model's unique gate names this coincides
with the single index `gate_name_to_idx` yields). -/
def SolverMeets (inp : SolveInput) (sol : Nat → Nat → Bool) : Prop :=
  (∀ i, i < inp.flights.length →
    (List.range inp.gateNames.length).countP (fun j => sol i j) = 1) ∧
  (∀ k, k < inp.flights.length → ∀ i, i < k →
    conflictB (inp.flights.getD i defFlight) (inp.flights.getD k defFlight) = true →
    ∀ j, j < inp.gateNames.length → ¬(sol i j = true ∧ sol k j = true)) ∧
  (∀ i, i < inp.flights.length → ∀ j, j < inp.gateNames.length →
    inp.gateNames.getD j "" ∈ inp.unavailable → sol i j = false)

/-- The gate name the solver selected for flight `i` (lines 708-712): first
gate index whose boolean variable is set, if any. -/
def solGate (gn : List String) (sol : Nat → Nat → Bool) (i : Nat) : Option String :=
  ((List.range gn.length).find? (fun j => sol i j)).map (fun j => gn.getD j "")

/-- The greedy repair scan (lines 723-745): first gate in matrix order that
is not unavailable and has no conflicting flight currently recorded at it in
the (partially updated) working DataFrame. -/
def repairScan (gn unav : List String) (df : List Flight) (fl : Flight) : Option String :=
  gn.find? (fun alt =>
    !(unav.contains alt) &&
    df.all (fun o => !(o.gate == alt) || o.no == fl.no || !(conflictB fl o)))

/-- The result-extraction loop (lines 702-767), processing flight indices in
order while mutating the working DataFrame in place: flights without a
selected gate are skipped (`continue`, line 717); a flight placed on an
unavailable gate goes through the repair scan and keeps the invalid gate when
the scan fails (line 748); each processed flight appends an assignment record
and updates its row's gate. -/
def assignGo (gn unav : List String) (sol : Nat → Nat → Bool) :
    Nat → Nat → List Flight → List AssignRecord → Bool →
    List Flight × List AssignRecord × Bool
  | 0, _, df, recs, changed => (df, recs, changed)
  | fuel + 1, i, df, recs, changed =>
    let fl := df.getD i defFlight
    match (List.range gn.length).find? (fun j => sol i j) with
    | none => assignGo gn unav sol fuel (i + 1) df recs changed
    | some j =>
      let g0 := gn.getD j ""
      let g1 :=
        if unav.contains g0 then
          match repairScan gn unav df fl with
          | some alt => alt
          | none => g0
        else g0
      assignGo gn unav sol fuel (i + 1)
        (df.set i { fl with gate := g1 })
        (recs ++ [⟨fl.no, fl.gate, g1, fl.deptime⟩])
        (changed || !(fl.gate == g1))

/-- Runs the result-extraction loop over the whole working DataFrame. -/
def assignAll (gn unav : List String) (sol : Nat → Nat → Bool) (wf : List Flight) :
    List Flight × List AssignRecord × Bool :=
  assignGo gn unav sol wf.length 0 wf [] false

/-- solver.ObjectiveValue(): the model objective (lines 665-682) evaluated at
the returned solution — the scaled distance from each flight's original gate
to every gate whose boolean variable is set. -/
def objectiveOf (gn : List String) (rawDist : Nat → Nat → ℚ) (wf : List Flight)
    (sol : Nat → Nat → Bool) : Int :=
  (List.range wf.length).foldr
    (fun i acc =>
      acc + (List.range gn.length).foldr
        (fun j acc2 =>
          acc2 + (if sol i j
                  then scaledDist rawDist (gateIdx gn ((wf.getD i defFlight).gate)) j
                  else 0))
        0)
    0

/-- A failed result dictionary (`{'status': 'failed', 'message': ...}`). -/
def mkFailed (msg : String) : EngineResult :=
  ⟨"failed", some msg, [], none⟩

/-- Steps 20-21 (lines 697-787): build the assignment records, commit the new
globals only when at least one gate changed, and attach
`float(objective_value) / 100 if objective_value else None` — which is `none`
whenever the solver objective is zero, because `0.0` is falsy. -/
def solveResult (gn : List String) (rawDist : Nat → Nat → ℚ) (st : EngineState)
    (unav : List String) (sol : Nat → Nat → Bool) (wf : List Flight) :
    EngineResult × EngineState × Bool :=
  (⟨"success", none, (assignAll gn unav sol wf).2.1,
    if objectiveOf gn rawDist wf sol = 0 then none
    else some ((objectiveOf gn rawDist wf sol : ℚ) / 100)⟩,
   if (assignAll gn unav sol wf).2.2 then
     ⟨(assignAll gn unav sol wf).1, some (assignAll gn unav sol wf).2.1⟩
   else st,
   true)

/-- The body of reassign_gates after the delays were applied to the working
copy `wf`: compute `unavailable_gates` and `flights_to_reassign`, take the
no-op shortcut (lines 571-587) when it applies, fail before invoking the
solver when a flight's gate is missing from the distance matrix (the
objective build at line 673 would raise on the NaN index from line 454),
otherwise invoke the backend and post-process. -/
def reassignCore (gn : List String) (rawDist : Nat → Nat → ℚ) (st : EngineState)
    (ev : EventData) (solver : SolveInput → SolverOutcome) (wf : List Flight) :
    EngineResult × EngineState × Bool :=
  if ((unavailOf gn wf ev.closedGates).isEmpty && ev.delayedFlights.isEmpty) ||
     (!(unavailOf gn wf ev.closedGates).isEmpty &&
      (flightsToReassignOf (unavailOf gn wf ev.closedGates) wf).isEmpty &&
      !ev.forceReassign) then
    (⟨"success", none, identityRecs wf, none⟩, st, false)
  else if wf.any (fun f => !(gn.contains f.gate)) then
    (mkFailed "flight gate missing from distance matrix", st, false)
  else
    match solver (mkSolveInput gn rawDist wf (unavailOf gn wf ev.closedGates)) with
    | SolverOutcome.unsat => (mkFailed "no feasible solution", st, true)
    | SolverOutcome.sat sol =>
      solveResult gn rawDist st (unavailOf gn wf ev.closedGates) sol wf

/-- reassign_gates (lines 370-802) over the committed state: apply the delay
list to a working copy (a parse failure is the exception caught at line 798,
returning `failed` with the globals untouched), then run the core.  The
returned triple is (result dictionary, committed state after the call,
whether the CP-SAT backend was invoked). -/
def reassign_gates (gn : List String) (rawDist : Nat → Nat → ℚ) (st : EngineState)
    (ev : EventData) (solver : SolveInput → SolverOutcome) :
    EngineResult × EngineState × Bool :=
  match applyDelays st.latestFlights ev.delayedFlights with
  | none => (mkFailed "invalid time format in delayed flight", st, false)
  | some wf => reassignCore gn rawDist st ev solver wf

/-- The gate of a flight as reported by get_current_flights (lines 307-315):
the stored gate, overridden by every matching entry of the committed latest
assignment in order (the last match wins). -/
def effectiveGate (la : Option (List AssignRecord)) (f : Flight) : String :=
  match la with
  | none => f.gate
  | some recs => recs.foldl (fun g r => if r.flight == f.no then r.newGate else g) f.gate

/-- The /reassign endpoint (app.py lines 98-200): validate every delayed
flight's time (any malformed entry fails the whole request before anything
else happens), reject an event with nothing to do with a `warning`, shortcut
a closure-only event whose closed gates host no flights (per the effective
gates of get_current_flights) with `success` and an empty assignment plus an
informational message, and otherwise call the engine with
`_force_reassign = True`.  The triple is (response, committed state after the
call, whether the engine/optimizer was invoked). -/
def appReassign (gn : List String) (rawDist : Nat → Nat → ℚ) (st : EngineState)
    (req : AppRequest) (solver : SolveInput → SolverOutcome) :
    EngineResult × EngineState × Bool :=
  if req.delayedFlights.any (fun d => !(validTimeApp d.newTime)) then
    (mkFailed "invalid delayed flight time format", st, false)
  else if req.closedGates.isEmpty && req.delayedFlights.isEmpty then
    (⟨"warning", some "no closed gates or delayed flights in request", [], none⟩, st, false)
  else if !req.closedGates.isEmpty && req.delayedFlights.isEmpty &&
          st.latestFlights.all
            (fun f => !(req.closedGates.contains (effectiveGate st.latestAssignment f))) then
    (⟨"success", some "closed gates host no flights, nothing to reassign", [], none⟩, st, false)
  else
    reassign_gates gn rawDist st ⟨req.closedGates, req.delayedFlights, true⟩ solver

/-! Concrete scenarios used by counterexamples, failing-input evaluations and
witnesses.  Distances are per-pair rational values as read from the distance
spreadsheet; the solver stubs model particular backend behaviours. -/

/-- All-zero distance matrix. -/
def dist0 : Nat → Nat → ℚ := fun _ _ => 0

/-- A backend that reports infeasibility on every model. -/
def solverUnsat : SolveInput → SolverOutcome := fun _ => SolverOutcome.unsat

/-- A backend that assigns flight `i` to gate `i`. -/
def solverDiag : SolveInput → SolverOutcome :=
  fun _ => SolverOutcome.sat (fun i j => i == j)

/-- A backend that assigns every flight to gate 0. -/
def solverGate0 : SolveInput → SolverOutcome :=
  fun _ => SolverOutcome.sat (fun _ j => j == 0)

/-- A backend that assigns every flight to gate 1. -/
def solverGate1 : SolveInput → SolverOutcome :=
  fun _ => SolverOutcome.sat (fun _ j => j == 1)

/-- C1 counterexample: the committed schedule has two flights with
overlapping windows both on gate Y; the event closes the unrelated, empty
gate X. -/
def gnC1 : List String := ["X", "Y"]

/-- The C1 counterexample committed state. -/
def stC1 : EngineState :=
  ⟨[⟨"F1", "08:00", 450, 510, "Y"⟩, ⟨"F2", "08:10", 460, 520, "Y"⟩], none⟩

/-- The C1 counterexample event: close gate X only. -/
def evC1 : EventData := ⟨["X"], [], false⟩

/-- Shared witness scenario: two flights on gate A with windows separated by
exactly the buffer, gate B free. -/
def gnW : List String := ["A", "B"]

/-- The shared witness committed state. -/
def stW : EngineState :=
  ⟨[⟨"W1", "00:30", 0, 60, "A"⟩, ⟨"W2", "02:30", 120, 180, "A"⟩], none⟩

/-- The empty event with no force flag. -/
def evEmpty : EventData := ⟨[], [], false⟩

/-- C2 counterexample: gate HA (hosting K1) is closed; the backend
nevertheless returns K1 on HA, and every open gate hosts a conflicting
flight, so the greedy repair fails. -/
def gnC2 : List String := ["HA", "HB"]

/-- The C2 counterexample committed state. -/
def stC2 : EngineState :=
  ⟨[⟨"K1", "08:10", 460, 520, "HA"⟩, ⟨"K2", "08:20", 470, 530, "HB"⟩], none⟩

/-- The C2 counterexample event: close gate HA. -/
def evC2 : EventData := ⟨["HA"], [], false⟩

/-- Second C2 counterexample state: a single flight K3 on gate HA, so
closing HA reaches the solve path. -/
def stC2b : EngineState := ⟨[⟨"K3", "08:10", 460, 520, "HA"⟩], none⟩

/-- A backend reporting sat while selecting no gate for any flight: every
`assigned[(i, j)]` boolean is false, so the extraction loop's gate search
finds nothing and the `continue` at line 717 drops the flight. -/
def solverNone : SolveInput → SolverOutcome :=
  fun _ => SolverOutcome.sat (fun _ _ => false)

/-- C4 failing input: same shape as the C2 scenario with its own data — the
backend places M1 on the closed gate GA and the only open gate GB hosts the
conflicting flight M2. -/
def gnC4 : List String := ["GA", "GB"]

/-- The C4 failing-input committed state. -/
def stC4 : EngineState :=
  ⟨[⟨"M1", "08:10", 460, 520, "GA"⟩, ⟨"M2", "08:20", 470, 530, "GB"⟩], none⟩

/-- The C4 failing-input event: close gate GA. -/
def evC4 : EventData := ⟨["GA"], [], false⟩

/-- C5 witness state: a single flight on gate GB. -/
def stC5 : EngineState := ⟨[⟨"P1", "08:00", 450, 510, "GB"⟩], none⟩

/-- C5 witness request: a delayed flight whose new_time fails the HH:MM
range check. -/
def reqC5 : AppRequest := ⟨[], [⟨"P1", "25:99"⟩]⟩

/-- C6 counterexample: a delay-only event whose solve keeps the single
flight on its gate, making the solver objective zero. -/
def gnC6 : List String := ["GA", "GB"]

/-- The C6 counterexample committed state. -/
def stC6 : EngineState := ⟨[⟨"Q1", "08:00", 450, 510, "GA"⟩], none⟩

/-- The C6 counterexample event: delay flight Q1 to 10:00. -/
def evC6 : EventData := ⟨[], [⟨"Q1", "10:00"⟩], false⟩

/-- Commit scenario shared by the C6 and C10 witnesses: gate NA (hosting R1)
closes and the backend moves R1 to NB at distance 3.5. -/
def gnC6w : List String := ["NA", "NB"]

/-- Distance matrix of the commit scenario: 3.5 from NA to NB. -/
def distC6w : Nat → Nat → ℚ := fun r c => if r == 0 && c == 1 then (7 : ℚ) / 2 else 0

/-- The commit-scenario committed state. -/
def stC6w : EngineState := ⟨[⟨"R1", "08:00", 450, 510, "NA"⟩], none⟩

/-- The commit-scenario event: close gate NA. -/
def evC6w : EventData := ⟨["NA"], [], false⟩

/-- C8 scenario: the request closes gate GA, which hosts no flight; the
single flight S1 sits on GB. -/
def gnC8 : List String := ["GA", "GB"]

/-- The C8 committed state. -/
def stC8 : EngineState := ⟨[⟨"S1", "08:00", 450, 510, "GB"⟩], none⟩

/-- The C8 request: close gate GA only. -/
def reqC8 : AppRequest := ⟨["GA"], []⟩

/-- C9 counterexample: the event closes the empty valid gate GB together
with the unknown gate ZZ; the single flight T1 sits on GA. -/
def gnC9 : List String := ["GA", "GB"]

/-- The C9 committed state. -/
def stC9 : EngineState := ⟨[⟨"T1", "08:00", 450, 510, "GA"⟩], none⟩

/-- The C9 counterexample event: close GB and the unknown ZZ. -/
def evC9 : EventData := ⟨["GB", "ZZ"], [], false⟩

/-! General helper lemmas about the embedded operations. -/

/-- Setting one row of the working DataFrame leaves other rows unchanged. -/
theorem getD_set_ne {α : Type} (l : List α) (i k : Nat) (a d : α) (h : i ≠ k) :
    (l.set i a).getD k d = l.getD k d := by
  simp [List.getD_eq_getElem?_getD, List.getElem?_set_ne h]

/-- On proper windows (`start < end`), check_time_overlap is symmetric in the
two windows. -/
theorem check_time_overlap_symm (s1 e1 s2 e2 b : Int) (h1 : s1 < e1) (h2 : s2 < e2) :
    check_time_overlap s1 e1 s2 e2 b = check_time_overlap s2 e2 s1 e1 b := by
  unfold check_time_overlap
  rcases le_or_lt e1 s2 with hA | hA <;> rcases le_or_lt e2 s1 with hB | hB
  · omega
  · simp only [if_pos hA, if_neg (not_le.mpr hB)]
  · simp only [if_neg (not_le.mpr hA), if_pos hB]
  · simp only [if_neg (not_le.mpr hA), if_neg (not_le.mpr hB)]
    rw [min_comm, max_comm]

/-- The boolean conflict test is symmetric on proper windows. -/
theorem conflictB_symm (f g : Flight) (hf : f.start < f.endT) (hg : g.start < g.endT) :
    conflictB f g = conflictB g f := by
  unfold conflictB
  rw [check_time_overlap_symm _ _ _ _ _ hf hg]

/-- The per-gate conflict scan finds nothing exactly when the list is
pairwise conflict-free. -/
theorem anyConflictPair_eq_false {l : List Flight} :
    anyConflictPair l = false ↔ l.Pairwise (fun a b => conflictB a b = false) := by
  induction l with
  | nil => simp [anyConflictPair]
  | cons f rest ih =>
    simp only [anyConflictPair, Bool.or_eq_false_iff, List.any_eq_false,
      List.pairwise_cons, ih]
    constructor
    · exact fun ⟨ha, hp⟩ => ⟨fun g hg => by simpa using ha g hg, hp⟩
    · exact fun ⟨ha, hp⟩ => ⟨fun g hg => by simp [ha g hg], hp⟩

/-- A schedule whose same-gate flights never conflict yields an empty
`gate_conflicts` map. -/
theorem conflictedGates_eq_nil {gn : List String} {fs : List Flight}
    (h : fs.Pairwise (fun a b => a.gate = b.gate → conflictB a b = false)) :
    conflictedGates gn fs = [] := by
  unfold conflictedGates
  rw [List.filter_eq_nil_iff]
  intro g _
  simp only [Bool.not_eq_true]
  rw [anyConflictPair_eq_false]
  refine List.Pairwise.imp_of_mem ?_ (h.filter (fun f => f.gate == g))
  intro a b ha hb hab
  have ha2 := (List.mem_filter.mp ha).2
  have hb2 := (List.mem_filter.mp hb).2
  exact hab (by simp_all)

/-- An empty flights_to_reassign list means no flight sits on an unavailable
gate. -/
theorem flightsToReassign_nil {unav : List String} {fs : List Flight}
    (h : flightsToReassignOf unav fs = []) : ∀ f ∈ fs, f.gate ∉ unav := by
  induction unav with
  | nil => intro f _ hf; simp at hf
  | cons g rest ih =>
    simp only [flightsToReassignOf, List.foldr_cons, List.append_eq_nil] at h
    obtain ⟨h1, h2⟩ := h
    intro f hf hmem
    rcases List.mem_cons.mp hmem with hgg | hgg
    · have : f ∈ fs.filter (fun x => x.gate == g) :=
        List.mem_filter.mpr ⟨hf, by simp [hgg]⟩
      rw [List.map_eq_nil_iff.mp h1] at this
      simp at this
    · exact ih h2 f hf hgg

/-- Applying delays never changes which flight ids are present, nor their
order. -/
theorem applyDelays_map_no :
    ∀ (ds : List DelayReq) (fs wf : List Flight), applyDelays fs ds = some wf →
      wf.map (fun f => f.no) = fs.map (fun f => f.no) := by
  intro ds
  induction ds with
  | nil =>
    intro fs wf h
    simp only [applyDelays] at h
    cases h
    rfl
  | cons d rest ih =>
    intro fs wf h
    simp only [applyDelays] at h
    split at h
    · split at h
      · cases h
      · have hm := ih _ wf h
        rw [hm]
        unfold delayUpdate
        rw [List.map_map]
        refine List.map_congr_left ?_
        intro f _
        simp only [Function.comp]
        split <;> rfl
    · exact ih fs wf h

/-- Updating rows for one delay does not change which flight ids occur. -/
theorem delayUpdate_any_no (d0 : DelayReq) (t : Int) (fs : List Flight) (x : String) :
    (delayUpdate d0 t fs).any (fun f => f.no == x) = fs.any (fun f => f.no == x) := by
  induction fs with
  | nil => rfl
  | cons f rest ih =>
    simp only [delayUpdate, List.map_cons, List.any_cons] at ih ⊢
    rw [ih]
    congr 1
    split <;> rfl

/-- Appending a delay entry for an unknown flight id to the delay list leaves
the delay application unchanged (the entry is skipped with a warning). -/
theorem applyDelays_snoc_unknown (d : DelayReq) :
    ∀ (ds : List DelayReq) (fs : List Flight),
      fs.any (fun f => f.no == d.no) = false →
      applyDelays fs (ds ++ [d]) = applyDelays fs ds := by
  intro ds
  induction ds with
  | nil =>
    intro fs h
    simp [applyDelays, h]
  | cons e rest ih =>
    intro fs h
    simp only [List.cons_append, applyDelays]
    split
    · cases ht : time_to_minutes e.newTime with
      | none => rfl
      | some t =>
        refine ih (delayUpdate e t fs) ?_
        rw [delayUpdate_any_no]
        exact h
    · exact ih fs h

/-- A positive count over `range n` yields a first index satisfying the
predicate. -/
theorem find_range_of_countP_pos {p : Nat → Bool} {n : Nat}
    (h : 0 < (List.range n).countP p) :
    ∃ j, (List.range n).find? p = some j ∧ j < n ∧ p j = true := by
  have hex : ∃ x ∈ List.range n, p x = true := by
    by_contra hc
    push_neg at hc
    have h0 : (List.range n).countP p = 0 :=
      List.countP_eq_zero.mpr (fun a ha => by simp [hc a ha])
    omega
  have hs : ((List.range n).find? p).isSome := List.find?_isSome.mpr hex
  obtain ⟨j, hj⟩ := Option.isSome_iff_exists.mp hs
  exact ⟨j, hj, List.mem_range.mp (List.mem_of_find?_eq_some hj), List.find?_some hj⟩

/-- Unfolding equation for one step of the result-extraction loop. -/
theorem assignGo_succ (gn unav : List String) (sol : Nat → Nat → Bool)
    (fuel i : Nat) (df : List Flight) (recs : List AssignRecord) (changed : Bool) :
    assignGo gn unav sol (fuel + 1) i df recs changed =
      match (List.range gn.length).find? (fun j => sol i j) with
      | none => assignGo gn unav sol fuel (i + 1) df recs changed
      | some j =>
        let fl := df.getD i defFlight
        let g0 := gn.getD j ""
        let g1 :=
          if unav.contains g0 then
            match repairScan gn unav df fl with
            | some alt => alt
            | none => g0
          else g0
        assignGo gn unav sol fuel (i + 1)
          (df.set i { fl with gate := g1 })
          (recs ++ [⟨fl.no, fl.gate, g1, fl.deptime⟩])
          (changed || !(fl.gate == g1)) := rfl

/-- If the truncated-loop flag comes out true, some produced record changed
its gate (given the same invariant on the accumulator). -/
theorem assignGo_changed (gn unav : List String) (sol : Nat → Nat → Bool) :
    ∀ fuel i df recs changed,
      (changed = true → ∃ r ∈ recs, r.originalGate ≠ r.newGate) →
      (assignGo gn unav sol fuel i df recs changed).2.2 = true →
      ∃ r ∈ (assignGo gn unav sol fuel i df recs changed).2.1,
        r.originalGate ≠ r.newGate := by
  intro fuel
  induction fuel with
  | zero =>
    intro i df recs changed hinv hc
    exact hinv hc
  | succ fuel ih =>
    intro i df recs changed hinv hc
    rw [assignGo_succ] at hc ⊢
    revert hc
    cases hfind : (List.range gn.length).find? (fun j => sol i j) with
    | none =>
      intro hc
      exact ih _ _ _ _ hinv hc
    | some j =>
      intro hc
      refine ih _ _ _ _ ?_ hc
      intro hch
      rcases (Bool.or_eq_true _ _).mp hch with hch | hch
      · obtain ⟨r, hr, hne⟩ := hinv hch
        exact ⟨r, List.mem_append_left _ hr, hne⟩
      · refine ⟨_, List.mem_append_right _ (List.mem_singleton.mpr rfl), ?_⟩
        simpa using hch

/-- When every processed index selects a gate outside the unavailable list,
the loop appends exactly one record per flight, in order: the record keeps
the flight's current data and the solver-selected gate, and no repair
fires. -/
theorem assignGo_recs (gn unav : List String) (sol : Nat → Nat → Bool) :
    ∀ fuel i0 df recs changed,
      (∀ t, t < fuel → ∃ j, (List.range gn.length).find? (fun k => sol (i0 + t) k) = some j ∧
          gn.getD j "" ∉ unav) →
      (assignGo gn unav sol fuel i0 df recs changed).2.1 =
        recs ++ (List.range fuel).map (fun t =>
          ⟨(df.getD (i0 + t) defFlight).no, (df.getD (i0 + t) defFlight).gate,
           (solGate gn sol (i0 + t)).getD "", (df.getD (i0 + t) defFlight).deptime⟩) := by
  intro fuel
  induction fuel with
  | zero =>
    intro i0 df recs changed _
    simp [assignGo]
  | succ fuel ih =>
    intro i0 df recs changed h
    obtain ⟨j, hj, hnot⟩ := h 0 (Nat.succ_pos fuel)
    simp only [Nat.add_zero] at hj
    have hcont : unav.contains (gn.getD j "") = false := by simpa using hnot
    have h2 : ∀ t, t < fuel →
        ∃ j2, (List.range gn.length).find? (fun k => sol ((i0 + 1) + t) k) = some j2 ∧
          gn.getD j2 "" ∉ unav := by
      intro t ht
      have h3 := h (t + 1) (by omega)
      rwa [show i0 + (t + 1) = (i0 + 1) + t by omega] at h3
    have hsg : solGate gn sol i0 = some (gn.getD j "") := by
      unfold solGate
      rw [hj]
      rfl
    rw [assignGo_succ, hj]
    dsimp only
    rw [hcont]
    simp only [Bool.false_eq_true, if_false]
    rw [ih _ _ _ _ h2]
    rw [List.range_succ_eq_map, List.map_cons, List.map_map]
    simp only [List.append_assoc, List.cons_append, List.nil_append]
    congr 1
    congr 1
    · rw [Nat.add_zero, hsg]
      rfl
    · refine List.map_congr_left ?_
      intro t ht
      simp only [Function.comp]
      have hne : i0 ≠ (i0 + 1) + t := by omega
      rw [getD_set_ne _ _ _ _ _ hne]
      rw [show (i0 + 1) + t = i0 + (t + 1) by omega]

/-! Claim theorems. -/

/-- C3: for proper integer windows (start < end, the data-model invariant),
when one window ends at or before the other begins, check_time_overlap
reports a conflict exactly when the gap between the windows is smaller than
the buffer, returning the gap as magnitude; in every other case it reports a
conflict and returns the overlap length `min(end1, end2) - max(start1, start2)`;
and the function is symmetric in the two windows. -/
theorem c3_check_time_overlap_spec (s1 e1 s2 e2 b : Int)
    (h1 : s1 < e1) (h2 : s2 < e2) :
    ((e1 ≤ s2 ∨ e2 ≤ s1) →
      check_time_overlap s1 e1 s2 e2 b =
        (if (if e1 ≤ s2 then s2 - e1 else s1 - e2) < b
         then (true, some (if e1 ≤ s2 then s2 - e1 else s1 - e2))
         else (false, none))) ∧
    (¬(e1 ≤ s2 ∨ e2 ≤ s1) →
      check_time_overlap s1 e1 s2 e2 b = (true, some (min e1 e2 - max s1 s2))) ∧
    check_time_overlap s1 e1 s2 e2 b = check_time_overlap s2 e2 s1 e1 b := by
  refine ⟨?_, ?_, check_time_overlap_symm s1 e1 s2 e2 b h1 h2⟩
  · intro hsep
    rcases hsep with hA | hB
    · simp only [check_time_overlap, if_pos hA]
    · have hA2 : ¬ e1 ≤ s2 := by omega
      simp only [check_time_overlap, if_neg hA2, if_pos hB]
  · intro hsep
    push_neg at hsep
    simp only [check_time_overlap, if_neg (not_le.mpr hsep.1), if_neg (not_le.mpr hsep.2)]

/-- C3 witness: a separated pair with gap 10 below the buffer, and an
overlapping pair with overlap 30. -/
theorem c3_check_time_overlap_spec_witness :
    check_time_overlap 0 60 70 130 30 = (true, some 10) ∧
    check_time_overlap 0 60 30 90 30 = (true, some 30) := by
  have h := c3_check_time_overlap_spec 0 60 70 130 30 (by decide) (by decide)
  have h2 := c3_check_time_overlap_spec 0 60 30 90 30 (by decide) (by decide)
  exact ⟨by rw [h.1 (Or.inl (by decide))]; decide,
         by rw [h2.2.1 (by decide)]; decide⟩

/-- C1 counterexample: with two conflicting flights both on gate Y in the
committed schedule, an event that closes only the empty gate X makes
reassign_gates take the no-op shortcut: the result has status success, the
two distinct flights still share gate Y, and the buffered overlap check on
their occupation windows reports a conflict. -/
theorem c1_counterexample :
    (reassign_gates gnC1 dist0 stC1 evC1 solverUnsat).1.status = "success" ∧
    ((reassign_gates gnC1 dist0 stC1 evC1 solverUnsat).1.assignment.getD 0 defRec).newGate =
      ((reassign_gates gnC1 dist0 stC1 evC1 solverUnsat).1.assignment.getD 1 defRec).newGate ∧
    ((reassign_gates gnC1 dist0 stC1 evC1 solverUnsat).1.assignment.getD 0 defRec).flight ≠
      ((reassign_gates gnC1 dist0 stC1 evC1 solverUnsat).1.assignment.getD 1 defRec).flight ∧
    (check_time_overlap 450 510 460 520 BUFFER_TIME).1 = true := by
  decide

/-- C2 counterexample, both halves of the claim: (a) the backend returns
flight K1 on the closed gate HA and the only open gate hosts a conflicting
flight, so the repair scan fails and the success result carries a new_gate
inside the event's validated closed-gate set; (b) a backend whose sat
solution selects no gate for flight K3 hits the `continue` at line 717, so
the success result contains no entry at all for the single input flight. -/
theorem c2_counterexample :
    ((reassign_gates gnC2 dist0 stC2 evC2 solverDiag).1.status = "success" ∧
     ((reassign_gates gnC2 dist0 stC2 evC2 solverDiag).1.assignment.getD 0 defRec).newGate ∈
       validatedClosed gnC2 evC2.closedGates) ∧
    ((reassign_gates gnC2 dist0 stC2b evC2 solverNone).1.status = "success" ∧
     (reassign_gates gnC2 dist0 stC2b evC2 solverNone).1.assignment.length = 0 ∧
     stC2b.latestFlights.length = 1) := by
  decide

/-- C4 failing-input evaluation: the backend places M1 on the closed gate GA
and the greedy repair scan finds no open conflict-free gate; M1 keeps the
invalid assignment, yet the result is plain success with no message and no
degraded marker of any kind. -/
theorem c4_failing_input_eval :
    (reassign_gates gnC4 dist0 stC4 evC4 solverDiag).1.status = "success" ∧
    (reassign_gates gnC4 dist0 stC4 evC4 solverDiag).1.message = none ∧
    ((reassign_gates gnC4 dist0 stC4 evC4 solverDiag).1.assignment.getD 0 defRec).newGate = "GA" ∧
    validatedClosed gnC4 evC4.closedGates = ["GA"] := by
  decide

/-- C6 counterexample: a delay-only event reaches the solve path (the
backend is invoked), the solver objective is zero because the flight stays
on its original gate, and the returned objective_value is None rather than
0/100 = 0 — `float(objective_value) / 100 if objective_value else None`
treats the float 0.0 as falsy. -/
theorem c6_counterexample :
    (reassign_gates gnC6 dist0 stC6 evC6 solverGate0).1.status = "success" ∧
    (reassign_gates gnC6 dist0 stC6 evC6 solverGate0).2.2 = true ∧
    objectiveOf gnC6 dist0 [⟨"Q1", "10:00", 570, 630, "GA"⟩] (fun _ j => j == 0) = 0 ∧
    (reassign_gates gnC6 dist0 stC6 evC6 solverGate0).1.objectiveValue = none ∧
    (reassign_gates gnC6 dist0 stC6 evC6 solverGate0).1.objectiveValue ≠ some 0 := by
  decide

/-- C8 counterexample: closing gate GA, which hosts no flight, while flight
S1 exists on GB: the endpoint returns success with an EMPTY assignment list
(no record for S1), an informational message, and without invoking the
optimizer — not the per-flight identity assignment the claim describes. -/
theorem c8_counterexample :
    (appReassign gnC8 dist0 stC8 reqC8 solverUnsat).1.status = "success" ∧
    (appReassign gnC8 dist0 stC8 reqC8 solverUnsat).1.assignment = [] ∧
    stC8.latestFlights.length = 1 ∧
    (appReassign gnC8 dist0 stC8 reqC8 solverUnsat).1.message ≠ none ∧
    (appReassign gnC8 dist0 stC8 reqC8 solverUnsat).2.2 = false := by
  decide

/-- C9 counterexample: the unknown gate ZZ is dropped from the validated
closed set and processing continues to a normal success result, but the
response message is None — the warning about the unknown id is only written
to the log, never recorded in the response returned to the caller. -/
theorem c9_counterexample :
    "ZZ" ∉ gnC9 ∧
    unavailOf gnC9 stC9.latestFlights evC9.closedGates = ["GB"] ∧
    (reassign_gates gnC9 dist0 stC9 evC9 solverUnsat).1.status = "success" ∧
    (reassign_gates gnC9 dist0 stC9 evC9 solverUnsat).1.message = none := by
  decide

/-- getD of the identity assignment at an in-range index. -/
theorem identityRecs_getD (fs : List Flight) (i : Nat) (hi : i < fs.length) :
    (identityRecs fs).getD i defRec =
      ⟨(fs.getD i defFlight).no, (fs.getD i defFlight).gate,
       (fs.getD i defFlight).gate, (fs.getD i defFlight).deptime⟩ := by
  unfold identityRecs
  rw [List.getD_eq_getElem _ _ (by simpa using hi), List.getElem_map,
      List.getD_eq_getElem _ _ hi]

/-- getD of a mapped range at an in-range index. -/
theorem range_map_getD {α : Type} (n i : Nat) (f : Nat → α) (d : α) (hi : i < n) :
    ((List.range n).map f).getD i d = f i := by
  rw [List.getD_eq_getElem _ _ (by simpa using hi), List.getElem_map,
      List.getElem_range]

/-- Distinct gate names make in-range getD reads injective. -/
theorem nodup_getD_inj {l : List String} (hnd : l.Nodup) {i j : Nat}
    (hi : i < l.length) (hj : j < l.length) (h : l.getD i "" = l.getD j "") :
    i = j := by
  rw [List.getD_eq_getElem _ _ hi, List.getD_eq_getElem _ _ hj] at h
  exact (List.Nodup.getElem_inj_iff hnd).mp h

/-- The validated closed-gate set is contained in the final unavailable
list. -/
theorem validated_subset_unavail (gn cg : List String) (wf : List Flight) :
    ∀ x ∈ validatedClosed gn cg, x ∈ unavailOf gn wf cg := by
  intro x hx
  unfold unavailOf
  split
  · next hh =>
    rw [List.isEmpty_iff.mp hh] at hx
    simp [validatedClosed] at hx
  · exact hx

/-- C5: if any delayed_flights entry of a /reassign request carries a
new_time that fails the HH:MM validation (split on a colon into two
integers with 0 ≤ HH ≤ 23 and 0 ≤ MM ≤ 59), the entire event is rejected
with status failed before any mutation: the committed schedule state is
exactly what it was and the engine (and optimizer) is never invoked. -/
theorem c5_invalid_time_rejected (gn : List String) (rawDist : Nat → Nat → ℚ)
    (st : EngineState) (req : AppRequest) (solver : SolveInput → SolverOutcome)
    (hbad : ∃ d ∈ req.delayedFlights, validTimeApp d.newTime = false) :
    (appReassign gn rawDist st req solver).1.status = "failed" ∧
    (appReassign gn rawDist st req solver).2.1 = st ∧
    (appReassign gn rawDist st req solver).2.2 = false := by
  obtain ⟨d, hd, hv⟩ := hbad
  have hany : (req.delayedFlights.any fun d => !(validTimeApp d.newTime)) = true :=
    List.any_eq_true.mpr ⟨d, hd, by simp [hv]⟩
  unfold appReassign
  rw [if_pos hany]
  exact ⟨rfl, rfl, rfl⟩

/-- C5 witness: the malformed time 25:99 rejects the whole request and the
committed state is untouched. -/
theorem c5_invalid_time_rejected_witness :
    (appReassign gnC8 dist0 stC5 reqC5 solverUnsat).1.status = "failed" ∧
    (appReassign gnC8 dist0 stC5 reqC5 solverUnsat).2.1 = stC5 ∧
    (appReassign gnC8 dist0 stC5 reqC5 solverUnsat).2.2 = false :=
  c5_invalid_time_rejected gnC8 dist0 stC5 reqC5 solverUnsat
    ⟨⟨"P1", "25:99"⟩, by decide, by decide⟩

/-- C7: applying the empty perturbation event (no closed gates, no delayed
flights) to a valid state — one whose same-gate flights never conflict —
returns status success with the identity assignment and an unchanged
committed state, without invoking the optimizer, for every backend and every
value of the force flag; and the diff is empty (every record keeps its
gate). -/
theorem c7_empty_event_identity (gn : List String) (rawDist : Nat → Nat → ℚ)
    (st : EngineState) (solver : SolveInput → SolverOutcome) (force : Bool)
    (hvalid : st.latestFlights.Pairwise
      (fun a b => a.gate = b.gate → conflictB a b = false)) :
    reassign_gates gn rawDist st ⟨[], [], force⟩ solver =
      (⟨"success", none, identityRecs st.latestFlights, none⟩, st, false) ∧
    ∀ r ∈ identityRecs st.latestFlights, r.newGate = r.originalGate := by
  constructor
  · have hcg : conflictedGates gn st.latestFlights = [] := conflictedGates_eq_nil hvalid
    show reassignCore gn rawDist st ⟨[], [], force⟩ solver st.latestFlights = _
    have hunav : unavailOf gn st.latestFlights (EventData.closedGates ⟨[], [], force⟩) = [] := by
      simp [unavailOf, hcg]
    unfold reassignCore
    rw [if_pos]
    rw [hunav]
    rfl
  · intro r hr
    obtain ⟨f, _, rfl⟩ := List.mem_map.mp hr
    rfl

/-- C7 witness: the empty event on the conflict-free two-flight state. -/
theorem c7_empty_event_identity_witness :
    reassign_gates gnW dist0 stW evEmpty solverUnsat =
      (⟨"success", none, identityRecs stW.latestFlights, none⟩, stW, false) :=
  (c7_empty_event_identity gnW dist0 stW solverUnsat false (by decide)).1

/-- C8 amended: closing gates none of which currently hosts a flight (per
the effective gates that get_current_flights reports), with no delays in the
same event, makes the /reassign endpoint return status success with an EMPTY
assignment list and an informational message, without invoking the engine or
the optimizer and leaving the committed state unchanged.  (The engine-level
shortcut, reached only on a direct engine call, would instead return the full
per-flight identity assignment with a plain success and no message.) -/
theorem c8_closure_noop (gn : List String) (rawDist : Nat → Nat → ℚ)
    (st : EngineState) (req : AppRequest) (solver : SolveInput → SolverOutcome)
    (hne : req.closedGates ≠ []) (hnd : req.delayedFlights = [])
    (hnone : ∀ f ∈ st.latestFlights,
      effectiveGate st.latestAssignment f ∉ req.closedGates) :
    appReassign gn rawDist st req solver =
      (⟨"success", some "closed gates host no flights, nothing to reassign", [], none⟩,
       st, false) := by
  have h1 : ¬((req.delayedFlights.any fun d => !(validTimeApp d.newTime)) = true) := by
    simp [hnd]
  have h2 : ¬((req.closedGates.isEmpty && req.delayedFlights.isEmpty) = true) := by
    simp [List.isEmpty_iff, hne]
  have h3 : (!req.closedGates.isEmpty && req.delayedFlights.isEmpty &&
      st.latestFlights.all
        (fun f => !(req.closedGates.contains (effectiveGate st.latestAssignment f)))) = true := by
    simp only [Bool.and_eq_true, Bool.not_eq_true', List.isEmpty_iff, List.all_eq_true]
    refine ⟨⟨by simpa [List.isEmpty_iff, List.isEmpty_eq_false] using hne, by simp [hnd]⟩, ?_⟩
    intro f hf
    simpa using hnone f hf
  unfold appReassign
  rw [if_neg h1, if_neg h2, if_pos h3]

/-- C8 witness: closing the flight-free gate GA with flight S1 on GB. -/
theorem c8_closure_noop_witness :
    appReassign gnC8 dist0 stC8 reqC8 solverUnsat =
      (⟨"success", some "closed gates host no flights, nothing to reassign", [], none⟩,
       stC8, false) :=
  c8_closure_noop gnC8 dist0 stC8 reqC8 solverUnsat (by decide) rfl (by decide)

/-- C10: reassign_gates commits a new process-wide state (the latest flights
data and latest assignment globals) only when at least one flight's gate
differs from its previous gate: whenever the returned committed state
differs from the input state, some assignment record has a changed gate.
Contrapositively, a successful solve in which every record keeps its gate —
for example a delays-only event forcing no moves — leaves the committed
state, including any updated departure times and occupation windows of the
working copy, untouched. -/
theorem c10_commit_only_on_change (gn : List String) (rawDist : Nat → Nat → ℚ)
    (st : EngineState) (ev : EventData) (solver : SolveInput → SolverOutcome)
    (hdiff : (reassign_gates gn rawDist st ev solver).2.1 ≠ st) :
    ∃ r ∈ (reassign_gates gn rawDist st ev solver).1.assignment,
      r.originalGate ≠ r.newGate := by
  unfold reassign_gates at hdiff ⊢
  revert hdiff
  cases ha : applyDelays st.latestFlights ev.delayedFlights with
  | none =>
    intro hdiff
    exact absurd rfl hdiff
  | some wf =>
    intro hdiff
    dsimp only at hdiff ⊢
    unfold reassignCore at hdiff ⊢
    by_cases hsc : (((unavailOf gn wf ev.closedGates).isEmpty &&
        ev.delayedFlights.isEmpty) ||
        (!(unavailOf gn wf ev.closedGates).isEmpty &&
         (flightsToReassignOf (unavailOf gn wf ev.closedGates) wf).isEmpty &&
         !ev.forceReassign)) = true
    · rw [if_pos hsc] at hdiff
      exact absurd rfl hdiff
    · rw [if_neg hsc] at hdiff ⊢
      by_cases hkn : (wf.any fun f => !(gn.contains f.gate)) = true
      · rw [if_pos hkn] at hdiff
        exact absurd rfl hdiff
      · rw [if_neg hkn] at hdiff ⊢
        revert hdiff
        cases hout : solver (mkSolveInput gn rawDist wf (unavailOf gn wf ev.closedGates)) with
        | unsat =>
          intro hdiff
          exact absurd rfl hdiff
        | sat sol =>
          intro hdiff
          dsimp only at hdiff ⊢
          unfold solveResult at hdiff ⊢
          by_cases hch :
              (assignAll gn (unavailOf gn wf ev.closedGates) sol wf).2.2 = true
          · exact assignGo_changed gn (unavailOf gn wf ev.closedGates) sol
              wf.length 0 wf [] false (fun h => absurd h (by decide)) hch
          · rw [if_neg hch] at hdiff
            exact absurd rfl hdiff

/-- C10 witness: closing gate NA moves flight R1 to NB, so the state is
committed and the changed record is exhibited. -/
theorem c10_commit_only_on_change_witness :
    ∃ r ∈ (reassign_gates gnC6w distC6w stC6w evC6w solverGate1).1.assignment,
      r.originalGate ≠ r.newGate :=
  c10_commit_only_on_change gnC6w distC6w stC6w evC6w solverGate1 (by decide)

/-- C6 amended: distances are scaled to integers by multiplying by 100
before solving (the model objective is built from `int(d * 100)` entries),
and a success result produced by an actual solve carries objective_value
equal to the solver's integer objective divided by 100 whenever that
objective is nonzero, but None when the objective is zero — the
`if objective_value` guard treats the float 0.0 as falsy and drops the
value. -/
theorem c6_objective_scaling (gn : List String) (rawDist : Nat → Nat → ℚ)
    (st : EngineState) (ev : EventData) (solver : SolveInput → SolverOutcome)
    (wf : List Flight) (sol : Nat → Nat → Bool)
    (hwf : applyDelays st.latestFlights ev.delayedFlights = some wf)
    (hns : (((unavailOf gn wf ev.closedGates).isEmpty && ev.delayedFlights.isEmpty) ||
        (!(unavailOf gn wf ev.closedGates).isEmpty &&
         (flightsToReassignOf (unavailOf gn wf ev.closedGates) wf).isEmpty &&
         !ev.forceReassign)) = false)
    (hknown : (wf.any fun f => !(gn.contains f.gate)) = false)
    (hsat : solver (mkSolveInput gn rawDist wf (unavailOf gn wf ev.closedGates)) =
      SolverOutcome.sat sol) :
    (reassign_gates gn rawDist st ev solver).2.2 = true ∧
    (reassign_gates gn rawDist st ev solver).1.status = "success" ∧
    (reassign_gates gn rawDist st ev solver).1.objectiveValue =
      (if objectiveOf gn rawDist wf sol = 0 then none
       else some ((objectiveOf gn rawDist wf sol : ℚ) / 100)) := by
  unfold reassign_gates
  rw [hwf]
  dsimp only
  unfold reassignCore
  rw [if_neg (by rw [hns]; exact Bool.false_ne_true),
      if_neg (by rw [hknown]; exact Bool.false_ne_true), hsat]
  exact ⟨rfl, rfl, rfl⟩

/-- C6 witness: closing gate NA moves flight R1 to gate NB at raw distance
3.5; the scaled objective is 350 and the reported objective_value is
350 / 100 = 3.5. -/
theorem c6_objective_scaling_witness :
    (reassign_gates gnC6w distC6w stC6w evC6w solverGate1).2.2 = true ∧
    (reassign_gates gnC6w distC6w stC6w evC6w solverGate1).1.status = "success" ∧
    (reassign_gates gnC6w distC6w stC6w evC6w solverGate1).1.objectiveValue =
      some ((7 : ℚ) / 2) := by
  have h := c6_objective_scaling gnC6w distC6w stC6w evC6w solverGate1
    stC6w.latestFlights (fun _ j => j == 1) rfl (by decide) (by decide) rfl
  refine ⟨h.1, h.2.1, ?_⟩
  rw [h.2.2]
  have hobj : objectiveOf gnC6w distC6w stC6w.latestFlights (fun _ j => j == 1) = 350 := by
    have h1 : ((7 : ℚ) / 2).num = 7 := by norm_num
    have h2 : ((7 : ℚ) / 2).den = 2 := by norm_num
    simp [objectiveOf, scaledDist, distC6w, gateIdx, gnC6w, stC6w, defFlight,
      List.range_succ, List.foldr, h1, h2]
    decide
  rw [hobj]
  norm_num

/-- C9 amended: an unknown gate id in the closure list and an unknown flight
id in the delay list are each skipped and processing of the remaining
entries continues identically — appending such an entry to a nonempty event
changes neither the result nor the committed state nor the optimizer usage —
but the recorded warning goes only to the log: a success response carries no
message at all, so no warning reaches the caller through the response. -/
theorem c9_unknown_ids_skipped (gn : List String) (rawDist : Nat → Nat → ℚ)
    (st : EngineState) (solver : SolveInput → SolverOutcome)
    (cg : List String) (ds : List DelayReq) (force : Bool) (g : String) (d : DelayReq)
    (hgUnknown : g ∉ gn) (hcg : cg ≠ [])
    (hdUnknown : st.latestFlights.any (fun f => f.no == d.no) = false) (hds : ds ≠ []) :
    reassign_gates gn rawDist st ⟨cg ++ [g], ds, force⟩ solver =
      reassign_gates gn rawDist st ⟨cg, ds, force⟩ solver ∧
    reassign_gates gn rawDist st ⟨cg, ds ++ [d], force⟩ solver =
      reassign_gates gn rawDist st ⟨cg, ds, force⟩ solver ∧
    ((reassign_gates gn rawDist st ⟨cg, ds, force⟩ solver).1.status = "success" →
      (reassign_gates gn rawDist st ⟨cg, ds, force⟩ solver).1.message = none) := by
  refine ⟨?_, ?_, ?_⟩
  · unfold reassign_gates
    dsimp only
    cases ha : applyDelays st.latestFlights ds with
    | none => rfl
    | some wf =>
      dsimp only
      have hunav : unavailOf gn wf (cg ++ [g]) = unavailOf gn wf cg := by
        unfold unavailOf
        rw [if_neg (show ¬((cg ++ [g]).isEmpty = true) by simp [List.isEmpty_iff]),
            if_neg (show ¬(cg.isEmpty = true) by simp [List.isEmpty_iff, hcg])]
        unfold validatedClosed
        rw [List.filter_append]
        have h3 : List.filter (fun x => gn.contains x) [g] = [] := by
          simp only [List.filter]
          have : gn.contains g = false := by simpa using hgUnknown
          rw [this]
        rw [h3, List.append_nil]
      unfold reassignCore
      dsimp only
      rw [hunav]
  · unfold reassign_gates
    dsimp only
    rw [applyDelays_snoc_unknown d ds st.latestFlights hdUnknown]
    cases ha : applyDelays st.latestFlights ds with
    | none => rfl
    | some wf =>
      dsimp only
      unfold reassignCore
      dsimp only
      rw [show (ds ++ [d]).isEmpty = false by simp [List.isEmpty_iff],
          show ds.isEmpty = false by simp [List.isEmpty_iff, hds]]
  · unfold reassign_gates
    dsimp only
    cases ha : applyDelays st.latestFlights ds with
    | none =>
      intro hs
      simp [mkFailed] at hs
    | some wf =>
      dsimp only
      unfold reassignCore
      by_cases hsc : (((unavailOf gn wf cg).isEmpty && ds.isEmpty) ||
          (!(unavailOf gn wf cg).isEmpty &&
           (flightsToReassignOf (unavailOf gn wf cg) wf).isEmpty && !force)) = true
      · rw [if_pos hsc]
        intro _
        rfl
      · rw [if_neg hsc]
        by_cases hkn : (wf.any fun f => !(gn.contains f.gate)) = true
        · rw [if_pos hkn]
          intro hs
          simp [mkFailed] at hs
        · rw [if_neg hkn]
          cases hout : solver (mkSolveInput gn rawDist wf (unavailOf gn wf cg)) with
          | unsat =>
            intro hs
            simp [mkFailed] at hs
          | sat sol =>
            intro _
            rfl

/-- C9 witness: the unknown gate ZZ and the unknown flight NOPE are skipped
while the delayed flight T1 and the closure of GB are processed normally,
and the success response has no message. -/
theorem c9_unknown_ids_skipped_witness :
    reassign_gates gnC9 dist0 stC9 ⟨["GB", "ZZ"], [⟨"T1", "09:00"⟩], false⟩ solverUnsat =
      reassign_gates gnC9 dist0 stC9 ⟨["GB"], [⟨"T1", "09:00"⟩], false⟩ solverUnsat ∧
    reassign_gates gnC9 dist0 stC9
        ⟨["GB"], [⟨"T1", "09:00"⟩, ⟨"NOPE", "09:30"⟩], false⟩ solverUnsat =
      reassign_gates gnC9 dist0 stC9 ⟨["GB"], [⟨"T1", "09:00"⟩], false⟩ solverUnsat ∧
    ((reassign_gates gnC9 dist0 stC9
        ⟨["GB"], [⟨"T1", "09:00"⟩], false⟩ solverUnsat).1.status = "success" →
      (reassign_gates gnC9 dist0 stC9
        ⟨["GB"], [⟨"T1", "09:00"⟩], false⟩ solverUnsat).1.message = none) :=
  c9_unknown_ids_skipped gnC9 dist0 stC9 solverUnsat ["GB"] [⟨"T1", "09:00"⟩] false
    "ZZ" ⟨"NOPE", "09:30"⟩ (by decide) (by decide) (by decide) (by decide)

/-- A success result of reassign_gates stems either from the no-op shortcut
(identity assignment) or from a satisfying solve whose records are produced
by the extraction loop. -/
theorem reassign_success_cases (gn : List String) (rawDist : Nat → Nat → ℚ)
    (st : EngineState) (ev : EventData) (solver : SolveInput → SolverOutcome)
    (wf : List Flight)
    (hwf : applyDelays st.latestFlights ev.delayedFlights = some wf)
    (hsucc : (reassign_gates gn rawDist st ev solver).1.status = "success") :
    ((((unavailOf gn wf ev.closedGates).isEmpty && ev.delayedFlights.isEmpty) ||
      (!(unavailOf gn wf ev.closedGates).isEmpty &&
       (flightsToReassignOf (unavailOf gn wf ev.closedGates) wf).isEmpty &&
       !ev.forceReassign)) = true ∧
      (reassign_gates gn rawDist st ev solver).1.assignment = identityRecs wf) ∨
    (∃ sol, (wf.any fun f => !(gn.contains f.gate)) = false ∧
      solver (mkSolveInput gn rawDist wf (unavailOf gn wf ev.closedGates)) =
        SolverOutcome.sat sol ∧
      (reassign_gates gn rawDist st ev solver).1.assignment =
        (assignAll gn (unavailOf gn wf ev.closedGates) sol wf).2.1) := by
  unfold reassign_gates at hsucc ⊢
  rw [hwf] at hsucc ⊢
  dsimp only at hsucc ⊢
  unfold reassignCore at hsucc ⊢
  by_cases hsc : (((unavailOf gn wf ev.closedGates).isEmpty &&
      ev.delayedFlights.isEmpty) ||
      (!(unavailOf gn wf ev.closedGates).isEmpty &&
       (flightsToReassignOf (unavailOf gn wf ev.closedGates) wf).isEmpty &&
       !ev.forceReassign)) = true
  · rw [if_pos hsc] at hsucc ⊢
    exact Or.inl ⟨hsc, rfl⟩
  · rw [if_neg hsc] at hsucc ⊢
    by_cases hkn : (wf.any fun f => !(gn.contains f.gate)) = true
    · rw [if_pos hkn] at hsucc
      simp [mkFailed] at hsucc
    · rw [if_neg hkn] at hsucc ⊢
      revert hsucc
      cases hout : solver (mkSolveInput gn rawDist wf (unavailOf gn wf ev.closedGates)) with
      | unsat =>
        intro hsucc
        simp [mkFailed] at hsucc
      | sat sol =>
        intro _
        exact Or.inr ⟨sol, by simpa using hkn, rfl, rfl⟩

/-- Consequences of the backend contract at one flight index: a first
selected gate index exists, is in range, is selected by the solution, and
names a gate outside the unavailable list. -/
theorem solverMeets_find (gn unav : List String) (wf : List Flight)
    (sol : Nat → Nat → Bool) (dist : Nat → Nat → Int)
    (hm : SolverMeets ⟨wf, gn, unav, dist⟩ sol) (i : Nat) (hi : i < wf.length) :
    ∃ j, (List.range gn.length).find? (fun k => sol i k) = some j ∧ j < gn.length ∧
      sol i j = true ∧ gn.getD j "" ∉ unav := by
  obtain ⟨h1, _, h3⟩ := hm
  have hc : (List.range gn.length).countP (fun k => sol i k) = 1 := h1 i hi
  obtain ⟨j, hfind, hlt, hpj⟩ :=
    find_range_of_countP_pos (p := fun k => sol i k) (n := gn.length) (by omega)
  refine ⟨j, hfind, hlt, hpj, ?_⟩
  intro hmem
  have hz := h3 i hi j hlt hmem
  rw [hz] at hpj
  cases hpj

/-- Under the backend contract, the records produced by the extraction loop
are, in order, one per flight: the flight's current data with its
solver-selected gate (no skip and no repair occurs). -/
theorem assignAll_contract (gn unav : List String) (wf : List Flight)
    (sol : Nat → Nat → Bool) (dist : Nat → Nat → Int)
    (hm : SolverMeets ⟨wf, gn, unav, dist⟩ sol) :
    (assignAll gn unav sol wf).2.1 =
      (List.range wf.length).map (fun t =>
        (⟨(wf.getD t defFlight).no, (wf.getD t defFlight).gate,
          (solGate gn sol t).getD "", (wf.getD t defFlight).deptime⟩ : AssignRecord)) := by
  have hgood : ∀ t, t < wf.length → ∃ j2,
      (List.range gn.length).find? (fun k => sol (0 + t) k) = some j2 ∧
      gn.getD j2 "" ∉ unav := by
    intro t ht
    obtain ⟨j2, hf, _, _, hnmem⟩ := solverMeets_find gn unav wf sol dist hm t ht
    rw [Nat.zero_add]
    exact ⟨j2, hf, hnmem⟩
  have hrecs := assignGo_recs gn unav sol wf.length 0 wf [] false hgood
  rw [List.nil_append] at hrecs
  simp only [Nat.zero_add] at hrecs
  exact hrecs

/-- C1 amended: provided the working schedule after the event's delays has
no buffered conflict among flights sharing a gate, occupation windows are
proper (start < end), gate names are distinct, and any satisfying assignment
the backend returns honors the model's constraints, every success result of
reassign_gates is conflict-free: two distinct flights whose records carry
the same new_gate never conflict under the buffered overlap check. -/
theorem c1_no_conflict_on_success (gn : List String) (rawDist : Nat → Nat → ℚ)
    (st : EngineState) (ev : EventData) (solver : SolveInput → SolverOutcome)
    (wf : List Flight)
    (hwf : applyDelays st.latestFlights ev.delayedFlights = some wf)
    (hcf : ∀ i, i < wf.length → ∀ j, j < wf.length → i ≠ j →
      (wf.getD i defFlight).gate = (wf.getD j defFlight).gate →
      conflictB (wf.getD i defFlight) (wf.getD j defFlight) = false)
    (hwin : ∀ f ∈ wf, f.start < f.endT)
    (hnd : gn.Nodup)
    (hsol : ∀ s, solver (mkSolveInput gn rawDist wf (unavailOf gn wf ev.closedGates)) =
        SolverOutcome.sat s →
      SolverMeets (mkSolveInput gn rawDist wf (unavailOf gn wf ev.closedGates)) s)
    (hsucc : (reassign_gates gn rawDist st ev solver).1.status = "success") :
    ∀ i, i < wf.length → ∀ j, j < wf.length → i ≠ j →
      ((reassign_gates gn rawDist st ev solver).1.assignment.getD i defRec).newGate =
        ((reassign_gates gn rawDist st ev solver).1.assignment.getD j defRec).newGate →
      conflictB (wf.getD i defFlight) (wf.getD j defFlight) = false := by
  intro i hi j hj hij heq
  rcases reassign_success_cases gn rawDist st ev solver wf hwf hsucc with
    ⟨_, hassign⟩ | ⟨sol, hkn, hout, hassign⟩
  · rw [hassign, identityRecs_getD wf i hi, identityRecs_getD wf j hj] at heq
    exact hcf i hi j hj hij heq
  · have hm := hsol sol hout
    rw [hassign, assignAll_contract gn (unavailOf gn wf ev.closedGates) wf sol _ hm,
        range_map_getD _ _ _ _ hi, range_map_getD _ _ _ _ hj] at heq
    obtain ⟨ji, hfi, hlti, hsoli, hnmi⟩ :=
      solverMeets_find gn (unavailOf gn wf ev.closedGates) wf sol _ hm i hi
    obtain ⟨jj, hfj, hltj, hsolj, hnmj⟩ :=
      solverMeets_find gn (unavailOf gn wf ev.closedGates) wf sol _ hm j hj
    have hsgi : solGate gn sol i = some (gn.getD ji "") := by
      unfold solGate
      rw [hfi]
      rfl
    have hsgj : solGate gn sol j = some (gn.getD jj "") := by
      unfold solGate
      rw [hfj]
      rfl
    dsimp only at heq
    rw [hsgi, hsgj] at heq
    simp only [Option.getD_some] at heq
    have hjeq : ji = jj := nodup_getD_inj hnd hlti hltj heq
    subst hjeq
    obtain ⟨_, hconf, _⟩ := hm
    rcases Nat.lt_or_ge i j with hlt | hge
    · by_contra hcc
      have hT : conflictB (wf.getD i defFlight) (wf.getD j defFlight) = true := by
        cases hb : conflictB (wf.getD i defFlight) (wf.getD j defFlight)
        · exact absurd hb hcc
        · rfl
      exact hconf j hj i hlt hT ji hlti ⟨hsoli, hsolj⟩
    · have hlt2 : j < i := by omega
      have hsymm := conflictB_symm (wf.getD i defFlight) (wf.getD j defFlight)
        (hwin _ (by rw [List.getD_eq_getElem _ _ hi]; exact List.getElem_mem _))
        (hwin _ (by rw [List.getD_eq_getElem _ _ hj]; exact List.getElem_mem _))
      rw [hsymm]
      by_contra hcc
      have hT : conflictB (wf.getD j defFlight) (wf.getD i defFlight) = true := by
        cases hb : conflictB (wf.getD j defFlight) (wf.getD i defFlight)
        · exact absurd hb hcc
        · rfl
      exact hconf i hi j hlt2 hT ji hlti ⟨hsolj, hsoli⟩

/-- C1 witness: the empty event on the conflict-free state keeps both
flights on gate A, and the theorem yields that their windows pass the
buffered overlap check. -/
theorem c1_no_conflict_on_success_witness :
    conflictB (stW.latestFlights.getD 0 defFlight) (stW.latestFlights.getD 1 defFlight) =
      false :=
  c1_no_conflict_on_success gnW dist0 stW evEmpty solverUnsat stW.latestFlights rfl
    (by decide) (by decide) (by decide) (fun s hs => nomatch hs) (by decide)
    0 (by decide) 1 (by decide) (by decide) (by decide)

/-- C2 amended: for every success result, provided any satisfying assignment
the backend returns honors the model constraints, the assignment list has
exactly one entry per input flight, in order, and no entry's new_gate lies
in the event's validated closed-gate set.  (Both parts need the proviso:
without it a flight the greedy repair cannot fix keeps its solver-given
closed gate in a success result, and a flight for which the backend selects
no gate is silently dropped from the success result by the `continue` at
line 717, as the two counterexample halves show.) -/
theorem c2_coverage_on_success (gn : List String) (rawDist : Nat → Nat → ℚ)
    (st : EngineState) (ev : EventData) (solver : SolveInput → SolverOutcome)
    (wf : List Flight)
    (hwf : applyDelays st.latestFlights ev.delayedFlights = some wf)
    (hsol : ∀ s, solver (mkSolveInput gn rawDist wf (unavailOf gn wf ev.closedGates)) =
        SolverOutcome.sat s →
      SolverMeets (mkSolveInput gn rawDist wf (unavailOf gn wf ev.closedGates)) s)
    (hsucc : (reassign_gates gn rawDist st ev solver).1.status = "success") :
    (reassign_gates gn rawDist st ev solver).1.assignment.length = wf.length ∧
    (∀ i, i < wf.length →
      ((reassign_gates gn rawDist st ev solver).1.assignment.getD i defRec).flight =
        (wf.getD i defFlight).no) ∧
    (∀ r ∈ (reassign_gates gn rawDist st ev solver).1.assignment,
      r.newGate ∉ validatedClosed gn ev.closedGates) := by
  rcases reassign_success_cases gn rawDist st ev solver wf hwf hsucc with
    ⟨hsc, hassign⟩ | ⟨sol, hkn, hout, hassign⟩
  · refine ⟨by rw [hassign]; simp [identityRecs], ?_, ?_⟩
    · intro i hi
      rw [hassign, identityRecs_getD wf i hi]
    · intro r hr hmem
      rw [hassign] at hr
      obtain ⟨f, hf, rfl⟩ := List.mem_map.mp hr
      have hunav := validated_subset_unavail gn ev.closedGates wf _ hmem
      rcases (Bool.or_eq_true _ _).mp hsc with hl | hr2
      · have hu : unavailOf gn wf ev.closedGates = [] :=
          List.isEmpty_iff.mp ((Bool.and_eq_true _ _).mp hl).1
        rw [hu] at hunav
        simp at hunav
      · have hft : flightsToReassignOf (unavailOf gn wf ev.closedGates) wf = [] :=
          List.isEmpty_iff.mp ((Bool.and_eq_true _ _).mp
            ((Bool.and_eq_true _ _).mp hr2).1).2
        exact flightsToReassign_nil hft f hf hunav
  · have hm := hsol sol hout
    rw [hassign, assignAll_contract gn (unavailOf gn wf ev.closedGates) wf sol _ hm]
    refine ⟨by simp, ?_, ?_⟩
    · intro i hi
      rw [range_map_getD _ _ _ _ hi]
    · intro r hr hmem
      obtain ⟨t, ht, rfl⟩ := List.mem_map.mp hr
      have ht2 : t < wf.length := List.mem_range.mp ht
      obtain ⟨jt, hft, hltt, hsolt, hnmt⟩ :=
        solverMeets_find gn (unavailOf gn wf ev.closedGates) wf sol _ hm t ht2
      have hsgt : solGate gn sol t = some (gn.getD jt "") := by
        unfold solGate
        rw [hft]
        rfl
      dsimp only at hmem
      rw [hsgt] at hmem
      simp only [Option.getD_some] at hmem
      exact hnmt (validated_subset_unavail gn ev.closedGates wf _ hmem)

/-- C2 witness: the empty event on the conflict-free state produces one
record per flight, in order. -/
theorem c2_coverage_on_success_witness :
    (reassign_gates gnW dist0 stW evEmpty solverUnsat).1.assignment.length =
      stW.latestFlights.length ∧
    ((reassign_gates gnW dist0 stW evEmpty solverUnsat).1.assignment.getD 0 defRec).flight =
      (stW.latestFlights.getD 0 defFlight).no := by
  have h := c2_coverage_on_success gnW dist0 stW evEmpty solverUnsat stW.latestFlights rfl
    (fun s hs => nomatch hs) (by decide)
  exact ⟨h.1, h.2.1 0 (by decide)⟩
